import Mathlib

/-!
Verification of the rowad-speedball-backend derived-metrics and query/filter
pipeline.  The definitions below are a shallow embedding of the TypeScript
source: calendar dates become explicit `(year, month, day)` triples (the code
reads the clock via `new Date()`; here the current date is passed explicitly),
database tables become lists of rows, and the drizzle query chains
(`where`/`orderBy`/`limit`/`offset`) become the corresponding list operations.
-/

/-- A calendar date as the JS code manipulates it: three integer components.
JS `Date.getMonth()` is zero-based, but only month differences and
comparisons are used, so a one-based month is equivalent. -/
structure SDate where
  year : Int
  month : Int
  day : Int
deriving DecidableEq, Repr

/-- Lexicographic order on dates: `SDate.le a b` means `a` is on or before `b`. -/
def SDate.le (a b : SDate) : Prop :=
  a.year < b.year ∨
    (a.year = b.year ∧ (a.month < b.month ∨ (a.month = b.month ∧ a.day ≤ b.day)))

instance (a b : SDate) : Decidable (SDate.le a b) := by
  unfold SDate.le; infer_instance

/-- `calculateAge` from `src/src/db/schema/players.ts` (lines 24-38).  The
source reads `today` from the system clock; it is passed explicitly here. -/
def calculateAge (today dateOfBirth : SDate) : Int :=
  let age := today.year - dateOfBirth.year
  let monthDiff := today.month - dateOfBirth.month
  if monthDiff < 0 ∨ (monthDiff = 0 ∧ today.day < dateOfBirth.day) then
    age - 1
  else
    age

/-- `getAgeGroup` from `src/src/db/schema/players.ts` (lines 40-52): INCLUSIVE
upper bounds (`age <= 7` gives "Mini").  The file
`src/src/services/players.service.ts` re-exports this function as
`playersService.getAgeGroup`, which is what the controllers import. -/
def getAgeGroup (today dateOfBirth : SDate) : String :=
  let age := calculateAge today dateOfBirth
  if age ≤ 7 then "Mini"
  else if age ≤ 9 then "U-09"
  else if age ≤ 11 then "U-11"
  else if age ≤ 13 then "U-13"
  else if age ≤ 15 then "U-15"
  else if age ≤ 17 then "U-17"
  else if age ≤ 19 then "U-19"
  else if age ≤ 21 then "U-21"
  else "Seniors"

/-- `playersService.calculateAge` from `src/unnamed/part_000` (an alternate
revision of the players service); its body is identical to `calculateAge`. -/
def legacyCalculateAge (today dateOfBirth : SDate) : Int :=
  let age := today.year - dateOfBirth.year
  let monthDiff := today.month - dateOfBirth.month
  if monthDiff < 0 ∨ (monthDiff = 0 ∧ today.day < dateOfBirth.day) then
    age - 1
  else
    age

/-- `playersService.getAgeGroup` from `src/unnamed/part_000` (lines 18-30):
EXCLUSIVE upper bounds (`age < 7` gives "Mini"), diverging from the schema
variant at the boundary ages. -/
def legacyGetAgeGroup (today dateOfBirth : SDate) : String :=
  let age := legacyCalculateAge today dateOfBirth
  if age < 7 then "Mini"
  else if age < 9 then "U-09"
  else if age < 11 then "U-11"
  else if age < 13 then "U-13"
  else if age < 15 then "U-15"
  else if age < 17 then "U-17"
  else if age < 19 then "U-19"
  else if age < 21 then "U-21"
  else "Seniors"

/-- The age-threshold chain of `getAgeGroup`, factored over the already
computed age (the source computes `age` first and then runs the chain). -/
def ageGroupOfAge (age : Int) : String :=
  if age ≤ 7 then "Mini"
  else if age ≤ 9 then "U-09"
  else if age ≤ 11 then "U-11"
  else if age ≤ 13 then "U-13"
  else if age ≤ 15 then "U-15"
  else if age ≤ 17 then "U-17"
  else if age ≤ 19 then "U-19"
  else if age ≤ 21 then "U-21"
  else "Seniors"

/-- The age-threshold chain of `legacyGetAgeGroup`, factored over the age. -/
def legacyAgeGroupOfAge (age : Int) : String :=
  if age < 7 then "Mini"
  else if age < 9 then "U-09"
  else if age < 11 then "U-11"
  else if age < 13 then "U-13"
  else if age < 15 then "U-15"
  else if age < 17 then "U-17"
  else if age < 19 then "U-19"
  else if age < 21 then "U-21"
  else "Seniors"

/-- Position of each age-group label in the ascending bracket order
Mini, U-09, ..., U-21, Seniors. -/
def ageGroupRank (g : String) : Nat :=
  if g = "Mini" then 0
  else if g = "U-09" then 1
  else if g = "U-11" then 2
  else if g = "U-13" then 3
  else if g = "U-15" then 4
  else if g = "U-17" then 5
  else if g = "U-19" then 6
  else if g = "U-21" then 7
  else 8

/-- The ordered upper-bound table of the age brackets, ascending. -/
def ageUpperBounds : List (Int × String) :=
  [(7, "Mini"), (9, "U-09"), (11, "U-11"), (13, "U-13"),
   (15, "U-15"), (17, "U-17"), (19, "U-19"), (21, "U-21")]

/-- First-match evaluation of an ordered upper-bound table with inclusive
bounds; the first bound at or above the age wins, defaulting to "Seniors". -/
def firstLeBound (age : Int) : List (Int × String) → String
  | [] => "Seniors"
  | (b, lbl) :: rest => if age ≤ b then lbl else firstLeBound age rest

/-- First-match evaluation with exclusive bounds. -/
def firstLtBound (age : Int) : List (Int × String) → String
  | [] => "Seniors"
  | (b, lbl) :: rest => if age < b then lbl else firstLtBound age rest

/-- The formula the spec states for the age computation: calendar-year
difference, reduced by one exactly when the reference month/day precedes the
birth month/day. -/
def ageSpecFormula (today dateOfBirth : SDate) : Int :=
  (today.year - dateOfBirth.year) -
    (if today.month < dateOfBirth.month ∨
        (today.month = dateOfBirth.month ∧ today.day < dateOfBirth.day) then 1
     else 0)

/-- A stored `test_results` row (`src/src/db/schema/test.ts`, testResults
table).  Ids are abstracted to naturals, `createdAt` to a natural timestamp. -/
structure ResultRow where
  id : Nat
  playerId : Nat
  testId : Nat
  leftHandScore : Int
  rightHandScore : Int
  forehandScore : Int
  backhandScore : Int
  createdAt : Nat
deriving DecidableEq, Repr

/-- `calculateTotalScore` from `src/src/db/schema/test.ts` (lines 44-56). -/
def calculateTotalScore (result : ResultRow) : Int :=
  result.leftHandScore + result.rightHandScore +
    result.forehandScore + result.backhandScore

/-- Modelled from the spec: `resultsService.calculateAverageScore` is imported
by the results controller but its file is not in the repository snapshot; per
spec section 3, averageScore = totalScore / 4 (exact rational division). -/
def calculateAverageScore (result : ResultRow) : Rat :=
  (calculateTotalScore result : Rat) / 4

/-- Modelled from the spec: `resultsService.getHighestScore` is imported by
the results controller but its file is not in the repository snapshot; per
spec section 3, highestScore is the max of the four sub-scores. -/
def getHighestScore (result : ResultRow) : Int :=
  max (max result.leftHandScore result.rightHandScore)
    (max result.forehandScore result.backhandScore)

/-- Modelled from the spec: `resultsService.getLowestScore` is imported by
the results controller but its file is not in the repository snapshot; per
spec section 3, lowestScore is the min of the four sub-scores. -/
def getLowestScore (result : ResultRow) : Int :=
  min (min result.leftHandScore result.rightHandScore)
    (min result.forehandScore result.backhandScore)

/-- Modelled from the spec: `resultsService.isResultInScoreRange` is imported
by the results controller but its file is not in the repository snapshot; per
spec section 4.4 the total-score range filter uses inclusive bounds, each
bound optional. -/
def isResultInScoreRange (total : Int) (minScore maxScore : Option Int) : Bool :=
  (match minScore with
   | some m => decide (m ≤ total)
   | none => true) &&
  (match maxScore with
   | some m => decide (total ≤ m)
   | none => true)

/-- An optional filter parameter: an absent parameter matches every row. -/
def optAll {α : Type} (p : α → Bool) : Option α → Bool
  | some a => p a
  | none => true

/-- Case-insensitive substring match, modelling the SQL `ILIKE %pat%`
predicate the controllers build for the free-text `q` parameter. -/
def likeContains (hay pat : String) : Bool :=
  decide ((pat.toList.map Char.toLower) <:+: (hay.toList.map Char.toLower))

/-- Insert into a list sorted descending by `key`, keeping earlier elements
first on ties (stable). -/
def insertByDesc {α : Type} (key : α → Nat) (x : α) : List α → List α
  | [] => [x]
  | y :: ys => if key x ≤ key y then y :: insertByDesc key x ys else x :: y :: ys

/-- Sort a list descending by `key`: the model of `ORDER BY ... DESC`. -/
def sortByDescKey {α : Type} (key : α → Nat) : List α → List α
  | [] => []
  | x :: xs => insertByDesc key x (sortByDescKey key xs)

/-- The page envelope assembled by `createPaginatedResponse`. -/
structure Paginated (α : Type) where
  items : List α
  page : Nat
  limit : Nat
  totalItems : Nat
  totalPages : Nat
deriving DecidableEq, Repr

/-- Modelled from the spec: `createPaginatedResponse` is imported from
`src/types/pagination`, which is not in the repository snapshot; per spec
section 4.5 the envelope carries items, page, limit, totalItems and
totalPages = ceil(totalItems / limit). -/
def createPaginatedResponse {α : Type} (items : List α) (page limit totalItems : Nat) :
    Paginated α :=
  { items := items, page := page, limit := limit, totalItems := totalItems,
    totalPages := (totalItems + limit - 1) / limit }

/-- `offset = (page - 1) * limit`, as computed by the tests and results
controllers. -/
def paginationOffset (page limit : Nat) : Nat :=
  (page - 1) * limit

inductive Gender
  | male
  | female
deriving DecidableEq, Repr

inductive Hand
  | left
  | right
  | both
deriving DecidableEq, Repr

/-- A stored `players` row (`src/src/db/schema/players.ts`). -/
structure PlayerRow where
  id : Nat
  name : String
  dateOfBirth : SDate
  gender : Gender
  preferredHand : Hand
  createdAt : Nat
deriving DecidableEq, Repr

/-- The validated query of GET /players (`playersQuerySchema` in
`src/src/types/players.schemas.ts`): only optional filters, no page or limit
parameter.  `ageGroup` is kept as a string; the schema enum it is validated
against is `playersAgeGroupEnum` below. -/
structure PlayersQuery where
  q : Option String
  gender : Option Gender
  preferredHand : Option Hand
  ageGroup : Option String
deriving DecidableEq, Repr

/-- The `ageGroup` enum of `playersQuerySchema`
(`src/src/types/players.schemas.ts`, lines 7-19): note the lowercase "mini". -/
def playersAgeGroupEnum : List String :=
  ["mini", "U-09", "U-11", "U-13", "U-15", "U-17", "U-19", "U-21", "Seniors"]

/-- A player as returned by the players controller: the row spread together
with the derived age and ageGroup. -/
structure PlayerOut where
  player : PlayerRow
  age : Int
  ageGroup : String
deriving DecidableEq, Repr

/-- The conjunction of storage-pushable player filters (name ILIKE, gender,
preferred hand) built by `playersController.findAll` in `src/unnamed/part_004`. -/
def playerMatches (query : PlayersQuery) (p : PlayerRow) : Bool :=
  optAll (fun s => likeContains p.name s) query.q &&
  optAll (fun g => decide (p.gender = g)) query.gender &&
  optAll (fun h => decide (p.preferredHand = h)) query.preferredHand

/-- `playersController.findAll` from `src/unnamed/part_004` (lines 16-74):
WHERE the pushable filters, ORDER BY createdAt DESC, LIMIT 50 (no offset),
attach age/ageGroup via the players service (the named service file
re-exports the schema classifier), then post-filter on ageGroup by strict
string equality.  No page envelope: the bare list is returned. -/
def playersFindAll (today : SDate) (rows : List PlayerRow) (query : PlayersQuery) :
    List PlayerOut :=
  let fetched := (sortByDescKey PlayerRow.createdAt (rows.filter (playerMatches query))).take 50
  let playersWithAge := fetched.map fun p =>
    { player := p
      age := calculateAge today p.dateOfBirth
      ageGroup := getAgeGroup today p.dateOfBirth }
  match query.ageGroup with
  | some g => playersWithAge.filter fun o => decide (o.ageGroup = g)
  | none => playersWithAge

/-- The `n` most recently created players: sort every stored row descending
by creation time and take the first `n`. -/
def mostRecent (n : Nat) (rows : List PlayerRow) : List PlayerRow :=
  (sortByDescKey PlayerRow.createdAt rows).take n

/-- A stored `tests` row (`src/src/db/schema/test.ts`, tests table). -/
structure TestRow where
  id : Nat
  name : String
  playingTime : Int
  recoveryTime : Int
  dateConducted : SDate
  createdAt : Nat
deriving DecidableEq, Repr

/-- The validated query of GET /tests (`testsQuerySchema`): filters plus page
and limit. -/
structure TestsQuery where
  q : Option String
  playingTime : Option Int
  recoveryTime : Option Int
  dateFrom : Option SDate
  dateTo : Option SDate
  page : Nat
  limit : Nat
deriving DecidableEq, Repr

/-- The conjunction of storage-pushable test filters built by
`testsController.findAll` (`src/src/controllers/tests.controller.ts`). -/
def testMatches (query : TestsQuery) (t : TestRow) : Bool :=
  optAll (fun s => likeContains t.name s) query.q &&
  optAll (fun v => decide (t.playingTime = v)) query.playingTime &&
  optAll (fun v => decide (t.recoveryTime = v)) query.recoveryTime &&
  optAll (fun d => decide (SDate.le d t.dateConducted)) query.dateFrom &&
  optAll (fun d => decide (SDate.le t.dateConducted d)) query.dateTo

/-- `testsController.findAll` from `src/src/controllers/tests.controller.ts`:
count query and data query over the same conditions, ORDER BY createdAt DESC
with LIMIT/OFFSET, then the envelope.  (The cosmetic display fields attached
by the missing `testsService` — totalTime, formattedTotalTime, status — are
not modelled; no claim concerns them.) -/
def testsFindAll (rows : List TestRow) (query : TestsQuery) : Paginated TestRow :=
  let offset := paginationOffset query.page query.limit
  let matched := rows.filter (testMatches query)
  let totalItems := matched.length
  let dataResult := ((sortByDescKey TestRow.createdAt matched).drop offset).take query.limit
  createPaginatedResponse dataResult query.page query.limit totalItems

/-- The validated query of GET /results (`resultsQuerySchema`): equality and
date-range filters plus the derived-field score range, page and limit. -/
structure ResultsQuery where
  playerId : Option Nat
  testId : Option Nat
  minScore : Option Int
  maxScore : Option Int
  dateFrom : Option Nat
  dateTo : Option Nat
  page : Nat
  limit : Nat
deriving DecidableEq, Repr

/-- The storage-pushable result filters built by `resultsController.findAll`
(`src/src/controllers/players.controller.ts`, lines 104-129): playerId,
testId and the createdAt range.  The score range is NOT here: it cannot be
pushed to storage. -/
def resultMatches (query : ResultsQuery) (r : ResultRow) : Bool :=
  optAll (fun p => decide (r.playerId = p)) query.playerId &&
  optAll (fun t => decide (r.testId = t)) query.testId &&
  optAll (fun d => decide (d ≤ r.createdAt)) query.dateFrom &&
  optAll (fun d => decide (r.createdAt ≤ d)) query.dateTo

/-- A result as returned by the results controller: the row together with its
derived score fields.  (performanceCategory, scoreDistribution and analysis
come from the missing `resultsService` file and are not modelled; no claim
concerns them.) -/
structure ResultOut where
  result : ResultRow
  totalScore : Int
  averageScore : Rat
  highestScore : Int
  lowestScore : Int
deriving DecidableEq, Repr

/-- `resultsController.findAll` from `src/src/controllers/players.controller.ts`
(lines 82-209): the count query sees only the pushable conditions; the data
query is fetched with LIMIT/OFFSET first; the score-range filter is applied
afterwards, to the already-fetched page; the envelope is then built from the
count-query total. -/
def toResultOut (r : ResultRow) : ResultOut :=
  { result := r
    totalScore := calculateTotalScore r
    averageScore := calculateAverageScore r
    highestScore := getHighestScore r
    lowestScore := getLowestScore r }

/-- The page of rows the results data query fetches: WHERE the pushable
conditions, ORDER BY createdAt DESC, then LIMIT/OFFSET. -/
def resultsPage (rows : List ResultRow) (query : ResultsQuery) : List ResultRow :=
  ((sortByDescKey ResultRow.createdAt (rows.filter (resultMatches query))).drop
    (paginationOffset query.page query.limit)).take query.limit

def resultsFindAll (rows : List ResultRow) (query : ResultsQuery) :
    Paginated ResultOut :=
  let totalItems := (rows.filter (resultMatches query)).length
  let withCalc := (resultsPage rows query).map toResultOut
  let filtered :=
    if query.minScore.isSome || query.maxScore.isSome then
      withCalc.filter fun o => isResultInScoreRange o.totalScore query.minScore query.maxScore
    else withCalc
  createPaginatedResponse filtered query.page query.limit totalItems

/-- The stored state the result-creation paths act on. -/
structure DBState where
  players : List PlayerRow
  tests : List TestRow
  results : List ResultRow
deriving DecidableEq, Repr

/-- The validated body of one result in POST /results or POST /results/bulk. -/
structure NewResult where
  playerId : Nat
  testId : Nat
  leftHandScore : Int
  rightHandScore : Int
  forehandScore : Int
  backhandScore : Int
deriving DecidableEq, Repr

/-- The observable outcome of a result-creation request: 201 with the
inserted rows, 404 with a message, or the 500 mapped from a storage error. -/
inductive CreateResponse
  | created (rows : List ResultRow)
  | notFound (msg : String)
  | internalError
deriving DecidableEq, Repr

/-- The database insert into `test_results`.  The migration
(`drizzle/0000_certain_justin_hammer.sql`) declares foreign keys on playerId
and testId, so the insert succeeds only when every referenced player and test
exists; otherwise the storage layer raises (here: `none`), which the
controllers catch as an internal error.  New ids are drawn from `nextId`,
`createdAt` from `now`. -/
def insertTestResults (st : DBState) (nextId now : Nat) (vals : List NewResult) :
    Option (List ResultRow × DBState) :=
  if vals.all (fun v =>
      st.players.any (fun p => decide (p.id = v.playerId)) &&
      st.tests.any (fun t => decide (t.id = v.testId))) then
    let rows := vals.enum.map fun iv =>
      { id := nextId + iv.fst
        playerId := iv.snd.playerId
        testId := iv.snd.testId
        leftHandScore := iv.snd.leftHandScore
        rightHandScore := iv.snd.rightHandScore
        forehandScore := iv.snd.forehandScore
        backhandScore := iv.snd.backhandScore
        createdAt := now }
    some (rows, { st with results := st.results ++ rows })
  else none

/-- `resultsController.create` from `src/src/controllers/players.controller.ts`
(lines 263-332): SELECT ... LIMIT 1 for the referenced player and test, 404
when either is absent, insert only afterwards. -/
def resultsCreate (st : DBState) (nextId now : Nat) (v : NewResult) :
    CreateResponse × DBState :=
  let playerExists := (st.players.filter fun p => decide (p.id = v.playerId)).take 1
  let testExists := (st.tests.filter fun t => decide (t.id = v.testId)).take 1
  if playerExists.length = 0 then (.notFound "Player not found", st)
  else if testExists.length = 0 then (.notFound "Test not found", st)
  else
    match insertTestResults st nextId now [v] with
    | some (rows, st2) => (.created rows, st2)
    | none => (.internalError, st)

/-- `resultsController.createBulk` from
`src/src/controllers/players.controller.ts` (lines 334-381): the source runs
two existence SELECTs (over the first playerId and testId only) but never
reads their outcome — no 404 branch exists — and then inserts directly, so a
dangling reference is only stopped by the storage layer itself. -/
def resultsCreateBulk (st : DBState) (nextId now : Nat) (vals : List NewResult) :
    CreateResponse × DBState :=
  match insertTestResults st nextId now vals with
  | some (rows, st2) => (.created rows, st2)
  | none => (.internalError, st)


/-- Reference date used by the concrete scenarios below. -/
def today0 : SDate := ⟨2024, 6, 1⟩

/-- Three stored results for one player and one test, with total scores 10,
20 and 30; the one with total 30 is the oldest. -/
def c2Rows : List ResultRow :=
  [⟨1, 1, 1, 10, 0, 0, 0, 3⟩, ⟨2, 1, 1, 20, 0, 0, 0, 2⟩, ⟨3, 1, 1, 30, 0, 0, 0, 1⟩]

/-- Page 1 of size 2 with minScore 25 and no storage-pushable filters. -/
def c2Query : ResultsQuery := ⟨none, none, some 25, none, none, none, 1, 2⟩

/-- Fifteen stored tests with distinct creation times. -/
def c6TestRows : List TestRow :=
  (List.range 15).map fun i => ⟨i, "T", 5, 3, ⟨2024, 1, 1⟩, i⟩

/-- Page 2 of size 10, no filters. -/
def c6TestsQuery : TestsQuery := ⟨none, none, none, none, none, 2, 10⟩

/-- Fifteen stored results with distinct creation times. -/
def c6ResultRows : List ResultRow :=
  (List.range 15).map fun i => ⟨i, 1, 1, 1, 1, 1, 1, i⟩

/-- Page 2 of size 10, no filters, no score range. -/
def c6ResultsQuery : ResultsQuery := ⟨none, none, none, none, none, none, 2, 10⟩

/-- Fifteen stored players with distinct creation times. -/
def c6PlayerRows : List PlayerRow :=
  (List.range 15).map fun i => ⟨i, "P", ⟨2015, 6, 1⟩, Gender.male, Hand.right, i⟩

/-- A players query with every filter absent. -/
def emptyPlayersQuery : PlayersQuery := ⟨none, none, none, none⟩

/-- A state holding one player with id 1 and no tests at all. -/
def c7State : DBState :=
  ⟨[⟨1, "P", ⟨2015, 6, 1⟩, Gender.male, Hand.right, 0⟩], [], []⟩

/-- A result payload referencing the existing player 1 and the non-existent
test 99. -/
def c7NewResult : NewResult := ⟨1, 99, 10, 8, 7, 5⟩

/-- Fifty-one stored players: the oldest one (createdAt 0) is the only
female, the fifty most recent are male. -/
def c10Rows : List PlayerRow :=
  (List.range 51).map fun i =>
    ⟨i, "P", ⟨2015, 6, 1⟩, if i = 0 then Gender.female else Gender.male, Hand.right, i⟩

/-- The players query filtering on gender=female only. -/
def c10Query : PlayersQuery := ⟨none, some Gender.female, none, none⟩

/-- The oldest stored player of `c10Rows`. -/
def c10OldestRow : PlayerRow := ⟨0, "P", ⟨2015, 6, 1⟩, Gender.female, Hand.right, 0⟩

theorem length_insertByDesc {α : Type} (key : α → Nat) (x : α) (l : List α) :
    (insertByDesc key x l).length = l.length + 1 := by
  induction l with
  | nil => rfl
  | cons y ys ih =>
    simp only [insertByDesc]
    split <;> simp [ih]

theorem length_sortByDescKey {α : Type} (key : α → Nat) (l : List α) :
    (sortByDescKey key l).length = l.length := by
  induction l with
  | nil => rfl
  | cons x xs ih => simp [sortByDescKey, length_insertByDesc, ih]

theorem rank_ageGroupOfAge (a : Int) : ageGroupRank (ageGroupOfAge a) =
    if a ≤ 7 then 0 else if a ≤ 9 then 1 else if a ≤ 11 then 2
    else if a ≤ 13 then 3 else if a ≤ 15 then 4 else if a ≤ 17 then 5
    else if a ≤ 19 then 6 else if a ≤ 21 then 7 else 8 := by
  unfold ageGroupOfAge
  split_ifs <;> rfl

theorem rank_legacyAgeGroupOfAge (a : Int) : ageGroupRank (legacyAgeGroupOfAge a) =
    if a < 7 then 0 else if a < 9 then 1 else if a < 11 then 2
    else if a < 13 then 3 else if a < 15 then 4 else if a < 17 then 5
    else if a < 19 then 6 else if a < 21 then 7 else 8 := by
  unfold legacyAgeGroupOfAge
  split_ifs <;> rfl

set_option maxHeartbeats 2000000 in
/-- C1 (amended): both age-group classifiers in the repository evaluate their
bracket table as ascending upper-bound checks where the first matching bound
wins, and each is a monotone non-decreasing step function of age; but the
boundary convention is NOT shared: the schema classifier is inclusive and the
part_000 service classifier is exclusive, so they disagree at age exactly 7. -/
theorem c1_ageGroup_monotone_first_match :
    (∀ a b : Int, a ≤ b →
      ageGroupRank (ageGroupOfAge a) ≤ ageGroupRank (ageGroupOfAge b)) ∧
    (∀ a b : Int, a ≤ b →
      ageGroupRank (legacyAgeGroupOfAge a) ≤ ageGroupRank (legacyAgeGroupOfAge b)) ∧
    (∀ a : Int, ageGroupOfAge a = firstLeBound a ageUpperBounds) ∧
    (∀ a : Int, legacyAgeGroupOfAge a = firstLtBound a ageUpperBounds) ∧
    (∀ t d : SDate, getAgeGroup t d = ageGroupOfAge (calculateAge t d)) ∧
    (∀ t d : SDate, legacyGetAgeGroup t d = legacyAgeGroupOfAge (legacyCalculateAge t d)) := by
  refine ⟨?_, ?_, fun a => rfl, fun a => rfl, fun t d => rfl, fun t d => rfl⟩
  · intro a b hab
    rw [rank_ageGroupOfAge, rank_ageGroupOfAge]
    split_ifs <;> omega
  · intro a b hab
    rw [rank_legacyAgeGroupOfAge, rank_legacyAgeGroupOfAge]
    split_ifs <;> omega

/-- C1 witness: the monotonicity parts applied at ages 3 and 5. -/
theorem c1_ageGroup_monotone_first_match_witness :
    ageGroupRank (ageGroupOfAge 3) ≤ ageGroupRank (ageGroupOfAge 5) ∧
    ageGroupRank (legacyAgeGroupOfAge 3) ≤ ageGroupRank (legacyAgeGroupOfAge 5) :=
  ⟨c1_ageGroup_monotone_first_match.1 3 5 (by decide),
   c1_ageGroup_monotone_first_match.2.1 3 5 (by decide)⟩

/-- C1 counterexample: for a player aged exactly 7 the two classifiers in the
repository disagree — the schema variant answers "Mini", the part_000 service
variant answers "U-09" — so the boundary convention is not the same at every
call site. -/
theorem c1_boundary_inconsistency :
    calculateAge ⟨2024, 9, 15⟩ ⟨2017, 3, 10⟩ = 7 ∧
    getAgeGroup ⟨2024, 9, 15⟩ ⟨2017, 3, 10⟩ = "Mini" ∧
    legacyGetAgeGroup ⟨2024, 9, 15⟩ ⟨2017, 3, 10⟩ = "U-09" ∧
    getAgeGroup ⟨2024, 9, 15⟩ ⟨2017, 3, 10⟩ ≠
      legacyGetAgeGroup ⟨2024, 9, 15⟩ ⟨2017, 3, 10⟩ := by
  refine ⟨by decide, by decide, by decide, by decide⟩

/-- C3: the implemented age is exactly the calendar-year difference reduced
by one when the reference month/day precedes the birth month/day, and birth
date 2015-06-01 evaluated at reference date 2024-06-01 yields age 9. -/
theorem c3_age_formula :
    (∀ t d : SDate, calculateAge t d = ageSpecFormula t d) ∧
    calculateAge ⟨2024, 6, 1⟩ ⟨2015, 6, 1⟩ = 9 := by
  constructor
  · intro t d
    simp only [calculateAge, ageSpecFormula]
    split_ifs <;> omega
  · decide

/-- C8 (amended): for a date of birth on or before the reference date the
computed age is non-negative and monotone non-decreasing in the reference
date; the code enforces no upper bound such as 130. -/
theorem c8_age_nonneg_monotone (dob r1 r2 : SDate)
    (h1 : SDate.le dob r1) (h2 : SDate.le r1 r2) :
    0 ≤ calculateAge r1 dob ∧ calculateAge r1 dob ≤ calculateAge r2 dob := by
  unfold SDate.le at h1 h2
  simp only [calculateAge]
  split_ifs <;> omega

/-- C8 witness: the amended theorem at dob 2015-06-01, references 2024-06-01
and 2025-01-01. -/
theorem c8_age_nonneg_monotone_witness :
    0 ≤ calculateAge ⟨2024, 6, 1⟩ ⟨2015, 6, 1⟩ ∧
    calculateAge ⟨2024, 6, 1⟩ ⟨2015, 6, 1⟩ ≤ calculateAge ⟨2025, 1, 1⟩ ⟨2015, 6, 1⟩ :=
  c8_age_nonneg_monotone ⟨2015, 6, 1⟩ ⟨2024, 6, 1⟩ ⟨2025, 1, 1⟩ (by decide) (by decide)

/-- C8 counterexample: the birth date 1850-01-01 is a calendar date not after
the reference date 2024-01-01, yet the computed age is 174, outside [0, 130]. -/
theorem c8_age_exceeds_130 :
    SDate.le ⟨1850, 1, 1⟩ ⟨2024, 1, 1⟩ ∧
    calculateAge ⟨2024, 1, 1⟩ ⟨1850, 1, 1⟩ = 174 ∧
    ¬(calculateAge ⟨2024, 1, 1⟩ ⟨1850, 1, 1⟩ ≤ 130) := by
  refine ⟨by decide, by decide, by decide⟩

theorem testsFindAll_totalItems (rows : List TestRow) (q : TestsQuery) :
    (testsFindAll rows q).totalItems = (rows.filter (testMatches q)).length := rfl

theorem testsFindAll_totalPages (rows : List TestRow) (q : TestsQuery) :
    (testsFindAll rows q).totalPages =
      ((rows.filter (testMatches q)).length + q.limit - 1) / q.limit := rfl

theorem testsFindAll_items (rows : List TestRow) (q : TestsQuery) :
    (testsFindAll rows q).items =
      ((sortByDescKey TestRow.createdAt (rows.filter (testMatches q))).drop
        (paginationOffset q.page q.limit)).take q.limit := rfl

theorem resultsFindAll_totalItems (rows : List ResultRow) (q : ResultsQuery) :
    (resultsFindAll rows q).totalItems = (rows.filter (resultMatches q)).length := rfl

theorem resultsFindAll_totalPages (rows : List ResultRow) (q : ResultsQuery) :
    (resultsFindAll rows q).totalPages =
      ((rows.filter (resultMatches q)).length + q.limit - 1) / q.limit := rfl

theorem resultsFindAll_items (rows : List ResultRow) (q : ResultsQuery) :
    (resultsFindAll rows q).items =
      if q.minScore.isSome || q.maxScore.isSome then
        ((resultsPage rows q).map toResultOut).filter fun o =>
          isResultInScoreRange o.totalScore q.minScore q.maxScore
      else (resultsPage rows q).map toResultOut := rfl

theorem le_ceil_mul (n l : Nat) (hl : 0 < l) : n ≤ ((n + l - 1) / l) * l := by
  rcases Nat.eq_zero_or_pos n with h | h
  · simp [h]
  · have h1 : n + l - 1 = (n - 1) + l := by omega
    rw [h1, Nat.add_div_right _ hl, Nat.succ_mul]
    have h2 : (n - 1) / l * l + (n - 1) % l = n - 1 := Nat.div_add_mod' _ _
    have h3 : (n - 1) % l < l := Nat.mod_lt _ hl
    omega

theorem filtered_le_offset (n l page : Nat) (hl : 0 < l)
    (h : (n + l - 1) / l < page) : n ≤ (page - 1) * l :=
  le_trans (le_ceil_mul n l hl) (Nat.mul_le_mul_right l (by omega))

/-- C5: in both paginated listings the data query uses offset
(page-1)*limit, the envelope reports totalPages = ceil(totalItems/limit),
totalItems = 0 forces totalPages = 0 and an empty page, and a page past
totalPages yields an empty page rather than an error. -/
theorem c5_pagination_envelope (trows : List TestRow) (tq : TestsQuery)
    (rrows : List ResultRow) (rq : ResultsQuery)
    (htp : 1 ≤ tq.page) (htl : 1 ≤ tq.limit)
    (hrp : 1 ≤ rq.page) (hrl : 1 ≤ rq.limit) :
    paginationOffset tq.page tq.limit = (tq.page - 1) * tq.limit ∧
    (testsFindAll trows tq).totalPages = (testsFindAll trows tq).totalItems ⌈/⌉ tq.limit ∧
    ((testsFindAll trows tq).totalItems = 0 →
      (testsFindAll trows tq).totalPages = 0 ∧ (testsFindAll trows tq).items = []) ∧
    ((testsFindAll trows tq).totalPages < tq.page → (testsFindAll trows tq).items = []) ∧
    (resultsFindAll rrows rq).totalPages = (resultsFindAll rrows rq).totalItems ⌈/⌉ rq.limit ∧
    ((resultsFindAll rrows rq).totalItems = 0 →
      (resultsFindAll rrows rq).totalPages = 0 ∧ (resultsFindAll rrows rq).items = []) ∧
    ((resultsFindAll rrows rq).totalPages < rq.page → (resultsFindAll rrows rq).items = []) := by
  refine ⟨rfl, rfl, ?_, ?_, rfl, ?_, ?_⟩
  · intro h0
    rw [testsFindAll_totalItems] at h0
    constructor
    · rw [testsFindAll_totalPages, h0]
      exact Nat.div_eq_of_lt (by omega)
    · rw [testsFindAll_items, List.length_eq_zero.mp h0]
      simp [sortByDescKey]
  · intro hpage
    rw [testsFindAll_totalPages] at hpage
    rw [testsFindAll_items]
    have hN : (trows.filter (testMatches tq)).length ≤ (tq.page - 1) * tq.limit :=
      filtered_le_offset _ _ _ (by omega) hpage
    have hlen : (sortByDescKey TestRow.createdAt (trows.filter (testMatches tq))).length ≤
        paginationOffset tq.page tq.limit := by
      rw [length_sortByDescKey]; exact hN
    rw [List.drop_eq_nil_of_le hlen]
    simp
  · intro h0
    rw [resultsFindAll_totalItems] at h0
    constructor
    · rw [resultsFindAll_totalPages, h0]
      exact Nat.div_eq_of_lt (by omega)
    · rw [resultsFindAll_items]
      have hpage0 : resultsPage rrows rq = [] := by
        unfold resultsPage
        rw [List.length_eq_zero.mp h0]
        simp [sortByDescKey]
      rw [hpage0]
      cases rq.minScore.isSome || rq.maxScore.isSome <;> simp
  · intro hpage
    rw [resultsFindAll_totalPages] at hpage
    rw [resultsFindAll_items]
    have hN : (rrows.filter (resultMatches rq)).length ≤ (rq.page - 1) * rq.limit :=
      filtered_le_offset _ _ _ (by omega) hpage
    have hlen : (sortByDescKey ResultRow.createdAt (rrows.filter (resultMatches rq))).length ≤
        paginationOffset rq.page rq.limit := by
      rw [length_sortByDescKey]; exact hN
    have hpage0 : resultsPage rrows rq = [] := by
      unfold resultsPage
      rw [List.drop_eq_nil_of_le hlen]
      simp
    rw [hpage0]
    cases rq.minScore.isSome || rq.maxScore.isSome <;> simp

/-- C5 witness: the envelope property at an empty store, page 1, limit 1. -/
theorem c5_pagination_envelope_witness :
    (testsFindAll [] ⟨none, none, none, none, none, 1, 1⟩).totalPages =
      (testsFindAll [] ⟨none, none, none, none, none, 1, 1⟩).totalItems ⌈/⌉ 1 :=
  (c5_pagination_envelope [] ⟨none, none, none, none, none, 1, 1⟩
    [] ⟨none, none, none, none, none, none, 1, 1⟩
    (by decide) (by decide) (by decide) (by decide)).2.1

/-- C2: in the results listing the reported totalItems always counts exactly
the rows matching the storage-pushable filters, ignoring the score range;
and on the concrete store `c2Rows` with `c2Query` the returned page holds
fewer items than the requested limit because the score filter runs on the
already-fetched page. -/
theorem c2_post_filter_pagination :
    (∀ (rows : List ResultRow) (query : ResultsQuery),
      (resultsFindAll rows query).totalItems =
        (rows.filter (resultMatches query)).length) ∧
    (resultsFindAll c2Rows c2Query).items.length < c2Query.limit ∧
    c2Query.limit ≤ (resultsFindAll c2Rows c2Query).totalItems := by
  refine ⟨fun rows query => rfl, by decide, by decide⟩

/-- C4: totalScore is the exact sum of the four sub-scores, and the scenario
{left 10, right 8, forehand 7, backhand 5} yields total 30, average 7.5,
highest 10, lowest 5. -/
theorem c4_score_aggregation :
    (∀ r : ResultRow, calculateTotalScore r =
      r.leftHandScore + r.rightHandScore + r.forehandScore + r.backhandScore) ∧
    calculateTotalScore ⟨1, 1, 1, 10, 8, 7, 5, 0⟩ = 30 ∧
    calculateAverageScore ⟨1, 1, 1, 10, 8, 7, 5, 0⟩ = 7.5 ∧
    getHighestScore ⟨1, 1, 1, 10, 8, 7, 5, 0⟩ = 10 ∧
    getLowestScore ⟨1, 1, 1, 10, 8, 7, 5, 0⟩ = 5 := by
  refine ⟨fun r => rfl, by decide, ?_, by decide, by decide⟩
  norm_num [calculateAverageScore, calculateTotalScore]

/-- C6 counterexample: the players findAll has no pagination at all — on a
store of 15 players it returns a bare list of all 15, not a 5-item second
page of an envelope. -/
theorem c6_players_listing_not_paginated :
    (playersFindAll today0 c6PlayerRows emptyPlayersQuery).length = 15 ∧
    (15 : Nat) ≠ 5 := by
  refine ⟨by decide, by decide⟩

/-- C6 (amended): the tests and results findAll accept filters, page and
limit and return the full envelope — with page 2, limit 10 over 15 rows they
report totalItems 15, totalPages 2 and 5 items — while the players findAll
takes only filters and returns a plain capped list. -/
theorem c6_envelopes_tests_results_only :
    (testsFindAll c6TestRows c6TestsQuery).totalItems = 15 ∧
    (testsFindAll c6TestRows c6TestsQuery).totalPages = 2 ∧
    (testsFindAll c6TestRows c6TestsQuery).items.length = 5 ∧
    (testsFindAll c6TestRows c6TestsQuery).page = 2 ∧
    (testsFindAll c6TestRows c6TestsQuery).limit = 10 ∧
    (resultsFindAll c6ResultRows c6ResultsQuery).totalItems = 15 ∧
    (resultsFindAll c6ResultRows c6ResultsQuery).totalPages = 2 ∧
    (resultsFindAll c6ResultRows c6ResultsQuery).items.length = 5 ∧
    (playersFindAll today0 c6PlayerRows emptyPlayersQuery).length = 15 := by
  decide

/-- C7: the single-result create path checks both references and answers 404
for the missing test with the state unchanged, exactly as the claim says; but
the bulk path never reads its existence queries, so the same dangling testId
reaches the storage layer and surfaces as the generic 500, not a 404. -/
theorem c7_bulk_create_skips_existence_check :
    resultsCreate c7State 100 5 c7NewResult =
      (CreateResponse.notFound "Test not found", c7State) ∧
    resultsCreateBulk c7State 100 5 [c7NewResult] =
      (CreateResponse.internalError, c7State) := by
  refine ⟨by decide, by decide⟩

theorem getAgeGroup_ne_mini (t d : SDate) : getAgeGroup t d ≠ "mini" := by
  show ageGroupOfAge (calculateAge t d) ≠ "mini"
  generalize calculateAge t d = a
  unfold ageGroupOfAge
  split_ifs <;> decide

/-- C9: the players query schema admits the lowercase label "mini", the
classifier only ever produces capitalized labels, and the post-computation
filter is strict string equality, so every request with ageGroup="mini"
returns the empty list. -/
theorem c9_mini_filter_always_empty :
    (∀ (today : SDate) (rows : List PlayerRow) (query : PlayersQuery),
      query.ageGroup = some "mini" → playersFindAll today rows query = []) ∧
    "mini" ∈ playersAgeGroupEnum ∧
    (∀ t d : SDate, getAgeGroup t d ≠ "mini") := by
  refine ⟨?_, by decide, getAgeGroup_ne_mini⟩
  intro today rows query h
  simp only [playersFindAll, h]
  rw [List.filter_eq_nil_iff]
  intro o ho
  obtain ⟨p, hp, rfl⟩ := List.mem_map.mp ho
  simpa using getAgeGroup_ne_mini today p.dateOfBirth

/-- C9 witness: the empty answer on a concrete one-player store. -/
theorem c9_mini_filter_always_empty_witness :
    playersFindAll today0 [c10OldestRow] ⟨none, none, none, some "mini"⟩ = [] :=
  c9_mini_filter_always_empty.1 today0 [c10OldestRow]
    ⟨none, none, none, some "mini"⟩ rfl

/-- C10 counterexample: with a gender filter the LIMIT 50 applies to the
filtered rows, so the oldest of 51 stored players — outside the 50 most
recently created — is still returned. -/
theorem c10_old_player_returned_under_filter :
    c10OldestRow ∈ (playersFindAll today0 c10Rows c10Query).map PlayerOut.player ∧
    c10OldestRow ∉ mostRecent 50 c10Rows := by
  refine ⟨by decide, by decide⟩

/-- C10 (amended): every players listing returns at most 50 items, and every
returned player lies within the 50 most recently created rows matching the
request's storage-pushable filters (only without filters is that the 50 most
recently created players overall). -/
theorem c10_players_capped_at_50 :
    (∀ (today : SDate) (rows : List PlayerRow) (query : PlayersQuery),
      (playersFindAll today rows query).length ≤ 50) ∧
    (∀ (today : SDate) (rows : List PlayerRow) (query : PlayersQuery) (o : PlayerOut),
      o ∈ playersFindAll today rows query →
      o.player ∈ (sortByDescKey PlayerRow.createdAt (rows.filter (playerMatches query))).take 50) := by
  constructor
  · intro today rows query
    simp only [playersFindAll]
    cases query.ageGroup with
    | none =>
      simpa using List.length_take_le 50 _
    | some g =>
      calc (List.filter _ _).length ≤ (List.map _ _).length := List.length_filter_le _ _
        _ ≤ 50 := by simpa using List.length_take_le 50 _
  · intro today rows query o ho
    simp only [playersFindAll] at ho
    rcases hq : query.ageGroup with _ | g
    · rw [hq] at ho
      obtain ⟨p, hp, rfl⟩ := List.mem_map.mp ho
      simpa using hp
    · rw [hq] at ho
      obtain ⟨p, hp, rfl⟩ := List.mem_map.mp (List.mem_of_mem_filter ho)
      simpa using hp

/-- C10 witness: the membership bound applied on a one-player store. -/
theorem c10_players_capped_at_50_witness :
    ({ player := c10OldestRow, age := 9, ageGroup := "U-09" } : PlayerOut).player ∈
      (sortByDescKey PlayerRow.createdAt ([c10OldestRow].filter (playerMatches emptyPlayersQuery))).take 50 :=
  c10_players_capped_at_50.2 today0 [c10OldestRow] emptyPlayersQuery _ (by decide)
